import Mathlib

/-!
Verification of the environment/country resolution and authentication
bootstrap logic of a Playwright end-to-end test suite.

The development is a shallow embedding: the process environment is an
explicit map threaded through the functions, JavaScript string methods
(`includes`, `indexOf`, `substring`) are modelled over `List Char`, and
fallible code returns `Except`.  Definitions mirror the TypeScript source
(`src/config/env.ts`, `src/utils/country-utils.ts`,
`src/utils/browser/cookie-manager.ts`, `tests/setup/global-setup.ts`).
-/

/-! ### JavaScript string primitives -/

/-- Index of the first occurrence of `pat` inside `s`, if any
(the `List Char` core of JavaScript `String.prototype.indexOf`). -/
def firstOccurrenceIdx (pat : List Char) : List Char → Option Nat
  | [] => if pat.isPrefixOf ([] : List Char) then some 0 else none
  | c :: rest =>
    if pat.isPrefixOf (c :: rest) then some 0
    else (firstOccurrenceIdx pat rest).map (· + 1)

/-- JavaScript `s.indexOf(pat)`: position of the first occurrence, `-1` if absent. -/
def jsIndexOf (s pat : String) : Int :=
  match firstOccurrenceIdx pat.data s.data with
  | some n => (n : Int)
  | none => -1

/-- JavaScript `s.includes(pat)`. -/
def jsIncludes (s pat : String) : Bool :=
  (firstOccurrenceIdx pat.data s.data).isSome

/-- JavaScript `s.substring(start)` (negative starts clamp to `0`). -/
def jsSubstring (s : String) (start : Int) : String :=
  ⟨s.data.drop start.toNat⟩

/-- Spec-side characterization, independent of index arithmetic:
everything after the first occurrence of `pat`, if `pat` occurs. -/
def afterFirstOccurrence (pat : List Char) : List Char → Option (List Char)
  | [] => if pat.isPrefixOf ([] : List Char) then some [] else none
  | c :: rest =>
    if pat.isPrefixOf (c :: rest) then some ((c :: rest).drop pat.length)
    else afterFirstOccurrence pat rest

/-! ### Process environment model -/

/-- The process environment: a map from variable names to string values
(`none` models an unset variable, JavaScript `undefined`). -/
def Env : Type := String → Option String

/-- Assignment `process.env[k] = v`. -/
def setEnv (e : Env) (k v : String) : Env :=
  fun q => if q = k then some v else e q

/-- JavaScript `a || b` on possibly-undefined strings
(`undefined` and `""` are falsy). -/
def jsOrOpt (a b : Option String) : Option String :=
  match a with
  | some v => if v = "" then b else some v
  | none => b

/-- JavaScript `a || b` where `b` is a definite string. -/
def jsOrStr (a : Option String) (b : String) : String :=
  match a with
  | some v => if v = "" then b else v
  | none => b

/-! ### `src/config/env.ts` -/

/-- The value `process.env[name] || defaultValue || ''` computed by `getEnv`. -/
def getEnvVal (e : Env) (name : String) (defaultValue : Option String) : String :=
  (jsOrOpt (e name) defaultValue).getD ""

/-- Function `getEnv(name, defaultValue?, required?)` of `src/config/env.ts`:
reads the current environment, falls back to the default when the variable
is unset or empty, and fails when `required` and nothing resolved. -/
def getEnv (e : Env) (name : String) (defaultValue : Option String := none)
    (required : Bool := false) : Except String String :=
  let value := getEnvVal e name defaultValue
  if required && value == "" then
    Except.error ("Required environment variable " ++ name ++ " is not set")
  else
    Except.ok value

/-- Getter `env.COUNTRY`: `getEnv('COUNTRY', 'US')`. -/
def envCOUNTRY (e : Env) : String :=
  ((getEnv e "COUNTRY" (some "US")).toOption).getD ""

/-- Getter `env.BRANCH`: `getEnv('BRANCH', 'production')`. -/
def envBRANCH (e : Env) : String :=
  ((getEnv e "BRANCH" (some "production")).toOption).getD ""

/-- Getter `env.DEPLOY_PREVIEW_URL`: `getEnv('DEPLOY_PREVIEW_URL', '')`. -/
def envDEPLOY_PREVIEW_URL (e : Env) : String :=
  ((getEnv e "DEPLOY_PREVIEW_URL" (some "")).toOption).getD ""

/-! ### `src/utils/country-utils.ts`: deploy preview parser -/

/-- Function `parseDeployPreviewUrl(deployPreviewUrl)` of `src/utils/country-utils.ts`:
falsy input returns `false` untouched; otherwise sets `DEPLOY_PRIME_URL`
and `CONTEXT = 'deploy-preview'` and returns `true`.  The `try` body only
assigns environment variables, so the function is total (never throws). -/
def parseDeployPreviewUrl (e : Env) (deployPreviewUrl : String) : Env × Bool :=
  if deployPreviewUrl = "" then
    (e, false)
  else
    let e1 := setEnv e "DEPLOY_PRIME_URL" deployPreviewUrl
    let e2 := setEnv e1 "CONTEXT" "deploy-preview"
    (e2, true)

/-! ### Data model (`src/types/global.d.ts`, `src/types/cookie.ts`) -/

/-- Record `CountryConfig` of `src/types/global.d.ts` (the fields this logic uses). -/
structure CountryConfig where
  countryCode : String
  domain : String
  cookieDomain : String
  checkoutDomain : String := ""
  locale : String := ""
  currency : String := ""
  language : String := ""
deriving Repr, DecidableEq

/-- Record `Cookie` of `src/types/cookie.ts`. -/
structure Cookie where
  name : String
  value : String
  domain : String
  path : String
  expires : Int
  httpOnly : Bool
  secure : Bool
  sameSite : String
deriving Repr, DecidableEq

/-! ### `src/utils/browser/cookie-manager.ts` -/

/-- The cookie list built and injected by `CookieManager.addAuthCookies`. -/
def addAuthCookies (cookieDomain : String) : List Cookie :=
  [ { name := "vuori_access"
      value := "allowed"
      domain := cookieDomain
      path := "/"
      expires := -1
      httpOnly := false
      secure := false
      sameSite := "Lax" },
    { name := "automation"
      value := "true"
      domain := cookieDomain
      path := "/"
      expires := -1
      httpOnly := false
      secure := false
      sameSite := "Lax" } ]

/-! ### `src/utils/country-utils.ts`: resolver -/

/-- Function `getEnvironmentCountryConfig(countryCode, branch)`, parameterized by the
country generator `gen` (the source calls `generateTestCountries()`, which
reads the environment): writes `branch` into `process.env.BRANCH`, runs the
generator on the updated environment, looks up the record by country code
(error naming the code when absent), and returns it with the cookie domain
normalized: `.` + everything after the first `"web."` when the domain
contains `"web."`, else `.` + the record's own `cookieDomain`. -/
def getEnvironmentCountryConfigWith (gen : Env → List CountryConfig)
    (e : Env) (countryCode branch : String) : Env × Except String CountryConfig :=
  let e1 := setEnv e "BRANCH" branch
  let testCountries := gen e1
  match testCountries.find? (fun c => c.countryCode == countryCode) with
  | none =>
    (e1, Except.error ("Test country configuration not found for country code: " ++ countryCode))
  | some tc =>
    let domain := tc.domain
    let cookieDomain :=
      if jsIncludes domain "web." then "." ++ jsSubstring domain (jsIndexOf domain "web." + 4)
      else "." ++ tc.cookieDomain
    (e1, Except.ok { tc with cookieDomain := cookieDomain })

/-- Function `getBaseUrl(countryConfig)` of `src/utils/country-utils.ts`. -/
def getBaseUrl (cfg : CountryConfig) : String :=
  "https://" ++ cfg.domain

/-! ### Country table and generator

`src/config/country-config.js` is not in the repository: only its type
declaration (`country-config.d.ts`) and its callers are.  The table and the
generator are therefore modelled from the spec. -/

/-- Modelled from the spec: the static per-country record table of the
missing `country-config.js` — "a static list of per-country domain/locale/
currency records" keyed by unique `countryCode` (e.g. "US", "GB"). -/
def countries : List CountryConfig :=
  [ { countryCode := "US"
      domain := "vuori.com"
      cookieDomain := "vuori.com"
      locale := "en-US"
      currency := "USD"
      language := "en" },
    { countryCode := "GB"
      domain := "vuori.co.uk"
      cookieDomain := "vuori.co.uk"
      locale := "en-GB"
      currency := "GBP"
      language := "en" } ]

/-- Modelled from the spec: `generateTestCountries()` of the missing
`country-config.js`.  It "reads the current `BRANCH` environment variable to
decide which environment-specific domain template to apply to each country's
base record (e.g. production domain vs. a staging/dev subdomain pattern)",
and it short-circuits to the literal deploy-preview URL when the preview
markers (`CONTEXT = deploy-preview`, `DEPLOY_PRIME_URL`) set by
`parseDeployPreviewUrl` are present, so that "normal domain resolution
should be bypassed in favor of the literal preview URL". -/
def generateTestCountries (e : Env) : List CountryConfig :=
  let branch := getEnvVal e "BRANCH" (some "production")
  let context := getEnvVal e "CONTEXT" (some "")
  let primeUrl := getEnvVal e "DEPLOY_PRIME_URL" (some "")
  countries.map (fun c =>
    if context = "deploy-preview" ∧ primeUrl ≠ "" then
      { c with domain := primeUrl }
    else if branch = "production" then
      c
    else
      { c with domain := branch ++ "--web." ++ c.domain })

/-- Resolver as invoked by the repository: `getEnvironmentCountryConfig`
instantiated with the (spec-modelled) `generateTestCountries`.  The
generator-generic theorems below cover this instance for every generator. -/
def getEnvironmentCountryConfig (e : Env) (countryCode branch : String) :
    Env × Except String CountryConfig :=
  getEnvironmentCountryConfigWith generateTestCountries e countryCode branch

/-! ### `tests/setup/global-setup.ts` -/

/-- Rendering of a possibly-undefined environment value for a log line. -/
def showEnvVar : Option String → String
  | some v => v
  | none => "undefined"

/-- The warning printed by `globalSetup` when parsing a non-empty
`DEPLOY_PREVIEW_URL` reports failure. -/
def warnParseFailureMsg : String :=
  "Failed to parse deploy preview URL, falling back to normal configuration"

/-- The `try` body of `globalSetup`, parameterized by the country generator
and by the browser bootstrap step (launch, cookie injection, storage-state
write — external effects that may fail).  Returns the console log together
with either the final environment or the error that aborted setup. -/
def globalSetupBody (gen : Env → List CountryConfig)
    (bootstrap : Env → String → Except String Unit) (e : Env) :
    List String × Except String Env :=
  let log0 := ["Global setup using environment variables:",
               "COUNTRY: " ++ showEnvVar (e "COUNTRY"),
               "BRANCH: " ++ showEnvVar (e "BRANCH")]
  let dpu := envDEPLOY_PREVIEW_URL e
  let step2 :=
    if dpu ≠ "" then
      let r := parseDeployPreviewUrl e dpu
      if r.2 then
        (r.1, ["DEPLOY_PREVIEW_URL: " ++ dpu, "Running tests against deploy preview"])
      else
        (r.1, ["DEPLOY_PREVIEW_URL: " ++ dpu, warnParseFailureMsg])
    else (e, ([] : List String))
  let e1 := step2.1
  let log1 := step2.2
  let countryCode := jsOrStr (e1 "COUNTRY") (envCOUNTRY e1)
  let branch := jsOrStr (e1 "BRANCH") (envBRANCH e1)
  match getEnvironmentCountryConfigWith gen e1 countryCode branch with
  | (_, Except.error msg) => (log0 ++ log1, Except.error msg)
  | (e2, Except.ok cfg) =>
    let baseUrl := getBaseUrl cfg
    let e3 := setEnv e2 "BASE_URL" baseUrl
    let log2 := ["Setting BASE_URL to: " ++ baseUrl,
                 "Using cookie domain: " ++ cfg.cookieDomain]
    match bootstrap e3 cfg.cookieDomain with
    | Except.error msg => (log0 ++ log1 ++ log2, Except.error msg)
    | Except.ok _ =>
      (log0 ++ log1 ++ log2 ++ ["Auth state saved with cookies"], Except.ok e3)

/-- Function `globalSetup` of `tests/setup/global-setup.ts`: the `try` body wrapped in
the `catch` that logs `Error in global setup:` and re-throws the original
error. -/
def globalSetup (gen : Env → List CountryConfig)
    (bootstrap : Env → String → Except String Unit) (e : Env) :
    List String × Except String Env :=
  match globalSetupBody gen bootstrap e with
  | (log, Except.ok e1) => (log, Except.ok e1)
  | (log, Except.error err) =>
    (log ++ ["Error in global setup: " ++ err], Except.error err)

/-! ## Shared lemmas -/

theorem afterFirstOccurrence_eq_drop (pat : List Char) :
    ∀ s : List Char,
      afterFirstOccurrence pat s =
        (firstOccurrenceIdx pat s).map (fun n => s.drop (n + pat.length)) := by
  intro s
  induction s with
  | nil =>
    simp only [afterFirstOccurrence, firstOccurrenceIdx]
    by_cases h : pat.isPrefixOf ([] : List Char) <;> simp [h]
  | cons c rest ih =>
    simp only [afterFirstOccurrence, firstOccurrenceIdx]
    by_cases h : pat.isPrefixOf (c :: rest)
    · simp [h]
    · simp only [h, if_false, ih, Option.map_map]
      cases firstOccurrenceIdx pat rest with
      | none => rfl
      | some n =>
        simp [Function.comp, Nat.add_right_comm, List.drop_succ_cons]

theorem parse_snd_true (e : Env) (url : String) (h : url ≠ "") :
    (parseDeployPreviewUrl e url).2 = true := by
  simp [parseDeployPreviewUrl, h]

theorem head_append_of_ne_empty (p x : String) (hp : p ≠ "") :
    (p ++ x).data.head? = p.data.head? := by
  rw [String.data_append]
  cases hq : p.data with
  | nil => exact absurd (String.ext hq) hp
  | cons c cs => simp

theorem warn_ne_prepend (p x : String)
    (h : warnParseFailureMsg.data.head? ≠ p.data.head?) (hp : p ≠ "") :
    warnParseFailureMsg ≠ p ++ x := by
  intro he
  exact h (by rw [he, head_append_of_ne_empty p x hp])

/-! ## Claims -/

/-- Claim C4: `addAuthCookies` injects exactly two cookies and no others —
`vuori_access = allowed` and `automation = true` — each with the supplied
resolved cookie domain, path `/`, `expires -1`, `httpOnly false`,
`secure false`, and `sameSite "Lax"`. -/
theorem addAuthCookies_exactly_two (d : String) :
    addAuthCookies d =
      [ { name := "vuori_access", value := "allowed", domain := d, path := "/",
          expires := -1, httpOnly := false, secure := false, sameSite := "Lax" },
        { name := "automation", value := "true", domain := d, path := "/",
          expires := -1, httpOnly := false, secure := false, sameSite := "Lax" } ] ∧
    (addAuthCookies d).length = 2 ∧
    (addAuthCookies d).map Cookie.name = ["vuori_access", "automation"] :=
  ⟨rfl, rfl, rfl⟩

/-- Claim C5: `parseDeployPreviewUrl` returns `false` with no environment
mutation on empty (falsy) input; on every non-empty input — malformed or
not, since no URL validation is performed and the function is total, hence
never throws — it sets `DEPLOY_PRIME_URL` to the given URL and `CONTEXT` to
`deploy-preview`, changes no other variable, and returns `true`. -/
theorem parseDeployPreviewUrl_spec (e : Env) (url : String) :
    parseDeployPreviewUrl e "" = (e, false) ∧
    (url ≠ "" →
      (parseDeployPreviewUrl e url).2 = true ∧
      (parseDeployPreviewUrl e url).1 "DEPLOY_PRIME_URL" = some url ∧
      (parseDeployPreviewUrl e url).1 "CONTEXT" = some "deploy-preview" ∧
      ∀ k, k ≠ "DEPLOY_PRIME_URL" → k ≠ "CONTEXT" →
        (parseDeployPreviewUrl e url).1 k = e k) := by
  refine ⟨rfl, fun h => ?_⟩
  simp only [parseDeployPreviewUrl, if_neg h]
  refine ⟨by trivial, by simp [setEnv], by simp [setEnv], fun k h1 h2 => ?_⟩
  simp [setEnv, h1, h2]

theorem parseDeployPreviewUrl_spec_witness :
    (parseDeployPreviewUrl (fun _ => none) "https://x.example.com").2 = true ∧
    (parseDeployPreviewUrl (fun _ => none) "https://x.example.com").1 "CONTEXT" =
      some "deploy-preview" :=
  ⟨((parseDeployPreviewUrl_spec (fun _ => none) "https://x.example.com").2 (by decide)).1,
   ((parseDeployPreviewUrl_spec (fun _ => none) "https://x.example.com").2 (by decide)).2.2.1⟩

/-- Claim C8: `getEnv` reads the current process environment at call time with
no caching: its result is exactly the current value when that value is
non-empty, two calls against environments whose underlying variable changed
return different results, and it falls back to the default when the
variable is unset or empty. -/
theorem getEnv_no_caching (e : Env) (name d : String) :
    (∀ v, e name = some v → v ≠ "" → getEnv e name (some d) false = Except.ok v) ∧
    (e name = none ∨ e name = some "" → getEnv e name (some d) false = Except.ok d) ∧
    (∀ v₁ v₂, v₁ ≠ "" → v₂ ≠ "" → v₁ ≠ v₂ →
      getEnv (setEnv e name v₁) name (some d) false ≠
        getEnv (setEnv e name v₂) name (some d) false) := by
  refine ⟨fun v hv hne => ?_, fun h => ?_, fun v₁ v₂ h1 h2 hne => ?_⟩
  · simp [getEnv, getEnvVal, jsOrOpt, hv, hne]
  · rcases h with h | h <;> simp [getEnv, getEnvVal, jsOrOpt, h]
  · have e1 : getEnv (setEnv e name v₁) name (some d) false = Except.ok v₁ := by
      simp [getEnv, getEnvVal, jsOrOpt, setEnv, h1]
    have e2 : getEnv (setEnv e name v₂) name (some d) false = Except.ok v₂ := by
      simp [getEnv, getEnvVal, jsOrOpt, setEnv, h2]
    rw [e1, e2]
    simp [hne]

theorem getEnv_no_caching_witness :
    getEnv (setEnv (fun _ => none) "COUNTRY" "US") "COUNTRY" (some "GB") false ≠
      getEnv (setEnv (fun _ => none) "COUNTRY" "FR") "COUNTRY" (some "GB") false :=
  (getEnv_no_caching (fun _ => none) "COUNTRY" "GB").2.2 "US" "FR"
    (by decide) (by decide) (by decide)

/-- Claim C3: for every country code absent from the generated country table,
`getEnvironmentCountryConfig` fails with the configuration-not-found error
carrying the requested code, and never returns a configuration. -/
theorem resolver_unknown_country_fails (gen : Env → List CountryConfig)
    (e : Env) (code branch : String)
    (habs : ∀ tc ∈ gen (setEnv e "BRANCH" branch), tc.countryCode ≠ code) :
    (getEnvironmentCountryConfigWith gen e code branch).2 =
      Except.error ("Test country configuration not found for country code: " ++ code) ∧
    ∀ cfg, (getEnvironmentCountryConfigWith gen e code branch).2 ≠ Except.ok cfg := by
  have hfind : (gen (setEnv e "BRANCH" branch)).find?
      (fun c => c.countryCode == code) = none := by
    rw [List.find?_eq_none]
    intro x hx
    simp [habs x hx]
  refine ⟨?_, fun cfg => ?_⟩ <;> simp [getEnvironmentCountryConfigWith, hfind]

theorem resolver_unknown_country_fails_witness :
    (getEnvironmentCountryConfigWith (fun _ => []) (fun _ => none) "ZZ" "production").2 =
      Except.error ("Test country configuration not found for country code: " ++ "ZZ") :=
  (resolver_unknown_country_fails (fun _ => []) (fun _ => none) "ZZ" "production"
    (by simp)).1

/-- Claim C6: the resolver writes its branch argument into the `BRANCH`
environment variable before the generator is invoked: the environment the
generator runs on maps `BRANCH` to the given branch (never a stale value),
and the resolver's result depends on the generator only through its value
at that updated environment. -/
theorem resolver_sets_branch_before_generator
    (gen₁ gen₂ : Env → List CountryConfig) (e : Env) (code branch : String) :
    (setEnv e "BRANCH" branch) "BRANCH" = some branch ∧
    (gen₁ (setEnv e "BRANCH" branch) = gen₂ (setEnv e "BRANCH" branch) →
      getEnvironmentCountryConfigWith gen₁ e code branch =
        getEnvironmentCountryConfigWith gen₂ e code branch) := by
  refine ⟨by simp [setEnv], fun h => ?_⟩
  simp only [getEnvironmentCountryConfigWith, h]

theorem resolver_sets_branch_before_generator_witness :
    (setEnv (fun _ => none) "BRANCH" "staging") "BRANCH" = some "staging" ∧
    getEnvironmentCountryConfigWith (fun _ => ([] : List CountryConfig))
        (fun _ => none) "US" "staging" =
      getEnvironmentCountryConfigWith (fun _ => []) (fun _ => none) "US" "staging" :=
  ⟨(resolver_sets_branch_before_generator (fun _ => []) (fun _ => [])
      (fun _ => none) "US" "staging").1,
   (resolver_sets_branch_before_generator (fun _ => []) (fun _ => [])
      (fun _ => none) "US" "staging").2 rfl⟩

/-- Claim C7: every configuration returned by the resolver (for any generator
output, country code and branch) has a `cookieDomain` that starts with the
character `.`. -/
theorem resolver_cookie_domain_leading_dot (gen : Env → List CountryConfig)
    (e : Env) (code branch : String) (cfg : CountryConfig)
    (h : (getEnvironmentCountryConfigWith gen e code branch).2 = Except.ok cfg) :
    cfg.cookieDomain.data.head? = some '.' ∧ ∃ rest, cfg.cookieDomain = "." ++ rest := by
  simp only [getEnvironmentCountryConfigWith] at h
  cases hfind : (gen (setEnv e "BRANCH" branch)).find?
      (fun c => c.countryCode == code) with
  | none =>
    rw [hfind] at h
    simp at h
  | some tc =>
    rw [hfind] at h
    simp only [Except.ok.injEq] at h
    subst h
    dsimp only
    by_cases hinc : jsIncludes tc.domain "web." = true
    · rw [if_pos hinc]
      exact ⟨by rw [head_append_of_ne_empty _ _ (by decide)]; rfl, _, rfl⟩
    · rw [if_neg hinc]
      exact ⟨by rw [head_append_of_ne_empty _ _ (by decide)]; rfl, _, rfl⟩

theorem resolver_cookie_domain_leading_dot_witness :
    (({ countryCode := "US", domain := "vuori.com",
        cookieDomain := ".vuori.com" } : CountryConfig)).cookieDomain.data.head? =
      some '.' :=
  (resolver_cookie_domain_leading_dot
    (fun _ => [{ countryCode := "US", domain := "vuori.com", cookieDomain := "vuori.com" }])
    (fun _ => none) "US" "production"
    { countryCode := "US", domain := "vuori.com", cookieDomain := ".vuori.com" }
    (by rfl)).1

theorem afterFirst_of_firstIdx (s : String) (n : Nat)
    (h : firstOccurrenceIdx "web.".data s.data = some n) :
    afterFirstOccurrence "web.".data s.data = some (s.data.drop (n + 4)) := by
  rw [afterFirstOccurrence_eq_drop, h]
  rfl

/-- Claim C2: for every country record the resolver finds, the returned
`cookieDomain` is `"." + domain.substring(domain.indexOf("web.") + 4)` —
which is everything after the first occurrence of `"web."`, prefixed with a
leading dot — whenever the domain contains the literal substring `"web."`,
and `"."` prefixed to the record's own `cookieDomain` otherwise. -/
theorem resolver_cookie_domain_rule (gen : Env → List CountryConfig)
    (e : Env) (code branch : String) (tc cfg : CountryConfig)
    (hfind : (gen (setEnv e "BRANCH" branch)).find?
      (fun c => c.countryCode == code) = some tc)
    (hok : (getEnvironmentCountryConfigWith gen e code branch).2 = Except.ok cfg) :
    (jsIncludes tc.domain "web." = true →
      cfg.cookieDomain = "." ++ jsSubstring tc.domain (jsIndexOf tc.domain "web." + 4) ∧
      ∃ post, afterFirstOccurrence "web.".data tc.domain.data = some post ∧
        cfg.cookieDomain = "." ++ String.mk post) ∧
    (jsIncludes tc.domain "web." = false → cfg.cookieDomain = "." ++ tc.cookieDomain) := by
  simp only [getEnvironmentCountryConfigWith] at hok
  rw [hfind] at hok
  simp only [Except.ok.injEq] at hok
  subst hok
  constructor
  · intro hinc
    dsimp only
    rw [if_pos hinc]
    refine ⟨rfl, ?_⟩
    obtain ⟨n, hn⟩ := Option.isSome_iff_exists.mp hinc
    refine ⟨tc.domain.data.drop (n + 4), afterFirst_of_firstIdx _ _ hn, ?_⟩
    have hidx : jsIndexOf tc.domain "web." = (n : Int) := by
      simp [jsIndexOf, hn]
    rw [hidx]
    have htn : ((n : Int) + 4).toNat = n + 4 := by omega
    simp [jsSubstring, htn]
  · intro hninc
    dsimp only
    rw [if_neg (by simp [hninc])]

theorem resolver_cookie_domain_rule_witness :
    (({ countryCode := "US", domain := "staging--web.vuori.com",
        cookieDomain := ".vuori.com" } : CountryConfig)).cookieDomain =
      "." ++ jsSubstring "staging--web.vuori.com"
        (jsIndexOf "staging--web.vuori.com" "web." + 4) :=
  ((resolver_cookie_domain_rule
    (fun _ => [{ countryCode := "US", domain := "staging--web.vuori.com",
                 cookieDomain := "vuori.com" }])
    (fun _ => none) "US" "staging"
    { countryCode := "US", domain := "staging--web.vuori.com",
      cookieDomain := "vuori.com" }
    { countryCode := "US", domain := "staging--web.vuori.com",
      cookieDomain := ".vuori.com" }
    (by rfl) (by rfl)).1 (by rfl)).1

/-- Claim C9: any error raised in the body of global setup (steps 1–4) is
logged and re-thrown by `globalSetup`: the run aborts with the original
error, and the log records it, rather than the error being swallowed. -/
theorem globalSetup_rethrows (gen : Env → List CountryConfig)
    (bootstrap : Env → String → Except String Unit) (e : Env) (err : String)
    (h : (globalSetupBody gen bootstrap e).2 = Except.error err) :
    (globalSetup gen bootstrap e).2 = Except.error err ∧
    ("Error in global setup: " ++ err) ∈ (globalSetup gen bootstrap e).1 := by
  unfold globalSetup
  rcases hb : globalSetupBody gen bootstrap e with ⟨log, r⟩
  rw [hb] at h
  simp only at h
  cases r with
  | ok e1 => simp at h
  | error err2 =>
    simp only [Except.error.injEq] at h
    subst h
    simp

theorem globalSetup_rethrows_witness :
    (globalSetup (fun _ => []) (fun _ _ => Except.ok ()) (fun _ => none)).2 =
      Except.error ("Test country configuration not found for country code: " ++ "US") :=
  (globalSetup_rethrows (fun _ => []) (fun _ _ => Except.ok ()) (fun _ => none)
    ("Test country configuration not found for country code: " ++ "US") (by rfl)).1
theorem warn_not_in_body_log (gen : Env → List CountryConfig)
    (bootstrap : Env → String → Except String Unit) (e : Env) :
    warnParseFailureMsg ∉ (globalSetupBody gen bootstrap e).1 := by
  simp only [globalSetupBody]
  by_cases hd : envDEPLOY_PREVIEW_URL e = ""
  · rw [if_neg (not_not_intro hd)]
    split
    · simp only [List.append_nil, List.mem_append, List.mem_cons, List.not_mem_nil,
        or_false, not_or]
      repeat' apply And.intro
      all_goals first
        | decide
        | exact warn_ne_prepend _ _ (by decide) (by decide)
    · split
      · simp only [List.append_nil, List.mem_append, List.mem_cons, List.not_mem_nil,
          or_false, not_or]
        repeat' apply And.intro
        all_goals first
          | decide
          | exact warn_ne_prepend _ _ (by decide) (by decide)
      · simp only [List.append_nil, List.mem_append, List.mem_cons, List.not_mem_nil,
          or_false, not_or]
        repeat' apply And.intro
        all_goals first
          | decide
          | exact warn_ne_prepend _ _ (by decide) (by decide)
  · rw [if_pos hd]
    rw [parse_snd_true e _ hd]
    simp only [if_true]
    split
    · simp only [List.mem_append, List.mem_cons, List.not_mem_nil, or_false, not_or]
      repeat' apply And.intro
      all_goals first
        | decide
        | exact warn_ne_prepend _ _ (by decide) (by decide)
    · split
      · simp only [List.mem_append, List.mem_cons, List.not_mem_nil, or_false, not_or]
        repeat' apply And.intro
        all_goals first
          | decide
          | exact warn_ne_prepend _ _ (by decide) (by decide)
      · simp only [List.mem_append, List.mem_cons, List.not_mem_nil, or_false, not_or]
        repeat' apply And.intro
        all_goals first
          | decide
          | exact warn_ne_prepend _ _ (by decide) (by decide)

/-- Claim C10: `parseDeployPreviewUrl` returns `false` exactly on empty input
(`true` for every non-empty string), so the fallback warning branch of
`globalSetup` that handles a failed parse of a non-empty
`DEPLOY_PREVIEW_URL` is unreachable: the warning never appears in the
setup log, for any generator, bootstrap and environment. -/
theorem globalSetup_warn_branch_unreachable (gen : Env → List CountryConfig)
    (bootstrap : Env → String → Except String Unit) (e : Env) (url : String) :
    ((parseDeployPreviewUrl e url).2 = false ↔ url = "") ∧
    warnParseFailureMsg ∉ (globalSetup gen bootstrap e).1 := by
  constructor
  · constructor
    · intro h
      by_contra hne
      rw [parse_snd_true e url hne] at h
      simp at h
    · intro h
      subst h
      rfl
  · have hbody := warn_not_in_body_log gen bootstrap e
    unfold globalSetup
    rcases hb : globalSetupBody gen bootstrap e with ⟨log, r⟩
    rw [hb] at hbody
    simp only at hbody
    cases r with
    | ok e1 => simpa using hbody
    | error err =>
      simp only [List.mem_append, List.mem_cons, List.not_mem_nil, or_false, not_or]
      exact ⟨hbody, warn_ne_prepend _ _ (by decide) (by decide)⟩

/-- Claim C1: when `DEPLOY_PREVIEW_URL` holds a non-empty preview host,
global setup bypasses country/branch-based domain resolution — the
deploy-preview parser's markers short-circuit the generator — and uses the
preview URL as `BASE_URL`.  (The generator is modelled from the spec, see
`generateTestCountries`.) -/
theorem globalSetup_uses_preview_url (e : Env) (u : String)
    (bootstrap : Env → String → Except String Unit)
    (hdpu : e "DEPLOY_PREVIEW_URL" = some u) (hu : u ≠ "")
    (hc : e "COUNTRY" = none) (hb : e "BRANCH" = none)
    (hboot : ∀ e1 d, bootstrap e1 d = Except.ok ()) :
    globalSetup generateTestCountries bootstrap e =
      (["Global setup using environment variables:",
        "COUNTRY: " ++ showEnvVar (e "COUNTRY"),
        "BRANCH: " ++ showEnvVar (e "BRANCH")] ++
       ["DEPLOY_PREVIEW_URL: " ++ u, "Running tests against deploy preview"] ++
       ["Setting BASE_URL to: " ++ ("https://" ++ u),
        "Using cookie domain: " ++
          (if jsIncludes u "web." then "." ++ jsSubstring u (jsIndexOf u "web." + 4)
           else "." ++ "vuori.com")] ++
       ["Auth state saved with cookies"],
       Except.ok (setEnv (setEnv (setEnv (setEnv e "DEPLOY_PRIME_URL" u)
         "CONTEXT" "deploy-preview") "BRANCH" "production")
         "BASE_URL" ("https://" ++ u))) ∧
    (setEnv (setEnv (setEnv (setEnv e "DEPLOY_PRIME_URL" u)
      "CONTEXT" "deploy-preview") "BRANCH" "production")
      "BASE_URL" ("https://" ++ u)) "BASE_URL" = some ("https://" ++ u) := by
  have hdget : envDEPLOY_PREVIEW_URL e = u := by
    simp [envDEPLOY_PREVIEW_URL, getEnv, getEnvVal, jsOrOpt, Except.toOption, hdpu, hu]
  have hparse : parseDeployPreviewUrl e u =
      (setEnv (setEnv e "DEPLOY_PRIME_URL" u) "CONTEXT" "deploy-preview", true) := by
    simp [parseDeployPreviewUrl, hu]
  have h1C : (setEnv (setEnv e "DEPLOY_PRIME_URL" u) "CONTEXT" "deploy-preview")
      "COUNTRY" = none := by
    simp [setEnv, hc]
  have h1B : (setEnv (setEnv e "DEPLOY_PRIME_URL" u) "CONTEXT" "deploy-preview")
      "BRANCH" = none := by
    simp [setEnv, hb]
  have hcc : jsOrStr
      ((setEnv (setEnv e "DEPLOY_PRIME_URL" u) "CONTEXT" "deploy-preview") "COUNTRY")
      (envCOUNTRY (setEnv (setEnv e "DEPLOY_PRIME_URL" u) "CONTEXT" "deploy-preview")) =
      "US" := by
    rw [h1C]
    simp [jsOrStr, envCOUNTRY, getEnv, getEnvVal, jsOrOpt, Except.toOption, h1C]
  have hbb : jsOrStr
      ((setEnv (setEnv e "DEPLOY_PRIME_URL" u) "CONTEXT" "deploy-preview") "BRANCH")
      (envBRANCH (setEnv (setEnv e "DEPLOY_PRIME_URL" u) "CONTEXT" "deploy-preview")) =
      "production" := by
    rw [h1B]
    simp [jsOrStr, envBRANCH, getEnv, getEnvVal, jsOrOpt, Except.toOption, h1B]
  have h4ctx : (setEnv (setEnv (setEnv e "DEPLOY_PRIME_URL" u) "CONTEXT" "deploy-preview")
      "BRANCH" "production") "CONTEXT" = some "deploy-preview" := by
    simp [setEnv]
  have h4prime : (setEnv (setEnv (setEnv e "DEPLOY_PRIME_URL" u) "CONTEXT" "deploy-preview")
      "BRANCH" "production") "DEPLOY_PRIME_URL" = some u := by
    simp [setEnv]
  have hgen : generateTestCountries
      (setEnv (setEnv (setEnv e "DEPLOY_PRIME_URL" u) "CONTEXT" "deploy-preview")
        "BRANCH" "production") =
      countries.map (fun c => { c with domain := u }) := by
    simp [generateTestCountries, getEnvVal, jsOrOpt, h4ctx, h4prime, hu]
  have hres : getEnvironmentCountryConfigWith generateTestCountries
      (setEnv (setEnv e "DEPLOY_PRIME_URL" u) "CONTEXT" "deploy-preview")
      "US" "production" =
      (setEnv (setEnv (setEnv e "DEPLOY_PRIME_URL" u) "CONTEXT" "deploy-preview")
        "BRANCH" "production",
       Except.ok { countryCode := "US", domain := u,
                   cookieDomain := if jsIncludes u "web." then
                       "." ++ jsSubstring u (jsIndexOf u "web." + 4)
                     else "." ++ "vuori.com",
                   locale := "en-US", currency := "USD", language := "en" }) := by
    simp only [getEnvironmentCountryConfigWith]
    rw [hgen]
    simp only [countries, List.map, List.find?]
    rfl
  have hfull : globalSetup generateTestCountries bootstrap e =
      (["Global setup using environment variables:",
        "COUNTRY: " ++ showEnvVar (e "COUNTRY"),
        "BRANCH: " ++ showEnvVar (e "BRANCH")] ++
       ["DEPLOY_PREVIEW_URL: " ++ u, "Running tests against deploy preview"] ++
       ["Setting BASE_URL to: " ++ ("https://" ++ u),
        "Using cookie domain: " ++
          (if jsIncludes u "web." then "." ++ jsSubstring u (jsIndexOf u "web." + 4)
           else "." ++ "vuori.com")] ++
       ["Auth state saved with cookies"],
       Except.ok (setEnv (setEnv (setEnv (setEnv e "DEPLOY_PRIME_URL" u)
         "CONTEXT" "deploy-preview") "BRANCH" "production")
         "BASE_URL" ("https://" ++ u))) := by
    simp only [globalSetup, globalSetupBody]
    rw [hdget, if_pos hu, hparse]
    dsimp only
    rw [if_pos rfl, hcc, hbb, hres]
    dsimp only
    rw [hboot]
    rfl
  exact ⟨hfull, by simp [setEnv]⟩

theorem globalSetup_uses_preview_url_witness :
    globalSetup generateTestCountries (fun _ _ => Except.ok ())
      (fun k => if k = "DEPLOY_PREVIEW_URL" then some "p.example" else none) =
      (["Global setup using environment variables:", "COUNTRY: undefined",
        "BRANCH: undefined", "DEPLOY_PREVIEW_URL: p.example",
        "Running tests against deploy preview",
        "Setting BASE_URL to: https://p.example",
        "Using cookie domain: .vuori.com", "Auth state saved with cookies"],
       Except.ok (setEnv (setEnv (setEnv (setEnv
         (fun k => if k = "DEPLOY_PREVIEW_URL" then some "p.example" else none)
         "DEPLOY_PRIME_URL" "p.example") "CONTEXT" "deploy-preview")
         "BRANCH" "production") "BASE_URL" "https://p.example")) ∧
    (setEnv (setEnv (setEnv (setEnv
      (fun k => if k = "DEPLOY_PREVIEW_URL" then some "p.example" else none)
      "DEPLOY_PRIME_URL" "p.example") "CONTEXT" "deploy-preview")
      "BRANCH" "production") "BASE_URL" "https://p.example") "BASE_URL" =
      some "https://p.example" :=
  globalSetup_uses_preview_url
    (fun k => if k = "DEPLOY_PREVIEW_URL" then some "p.example" else none)
    "p.example" (fun _ _ => Except.ok ()) rfl (by decide) rfl rfl
    (fun _ _ => rfl)
